import Mathlib

/-!
Verification of the Reddit megathread comment collector and sentiment
aggregator of `studio-sanremo` (`src/report/fetch.py`, `src/report/pipeline.py`).

Shallow embedding conventions:
* A Reddit JSON node is modelled by `RNode`: a `t1` comment node (optional
  `body`, optional `score`, nested replies), a `more` placeholder carrying
  continuation identifiers, or any other kind (`other`), which the walk
  skips.  Absent JSON keys are modelled by `Option` (`data.get("body", "")`
  becomes `Option.getD`).  A list of sibling nodes is the mutual inductive
  `RForest`.
* The network is modelled by an explicit `resolve` function passed to the
  fetcher: it maps a batch of continuation ids to the `things` list of the
  `morechildren` response, `none` standing for a failed request (falsy
  response in Python).
* Python `float` arithmetic is modelled by `ℚ`; `round(x, 3)` is modelled by
  round-half-to-even on the exact rational, matching Python's rounding mode.
* Python string lowercasing (`str.lower`) is modelled by `Char.toLower`
  (ASCII letters only), and the regex class `\w` by ASCII alphanumerics,
  underscore, and all non-ASCII code points (which covers the accented
  letters of the Italian lexicon).
-/

namespace StudioSanremo

/-- A recorded comment: `{"body": ..., "score": ...}` as built by
`_extract_comment_nodes`. -/
structure Comment where
  body : String
  score : Int
deriving DecidableEq, Repr

mutual
/-- A node of the Reddit comment-tree JSON, as inspected by
`_extract_comment_nodes`: `kind == "t1"` (a comment, with optional `body`,
optional `score` and its `replies` children), `kind == "more"` (a placeholder
listing continuation ids in `data["children"]`), or any other kind. -/
inductive RNode where
  | t1 (body : Option String) (score : Option Int) (replies : RForest)
  | more (childrenIds : List String)
  | other
/-- A list of sibling comment-tree nodes (`children` arrays in the JSON). -/
inductive RForest where
  | nil
  | cons (head : RNode) (tail : RForest)
end

/-- The recording condition of `_extract_comment_nodes`:
`body and body not in ("[deleted]", "[removed]")`, where a missing body
defaults to `""`. -/
def bodyOk (body : Option String) : Bool :=
  let b := body.getD ""
  b ≠ "" && b ≠ "[deleted]" && b ≠ "[removed]"

mutual
/-- The per-node work of `_extract_comment_nodes` (`fetch.py`): a `t1` node
is recorded when its body passes `bodyOk` (an absent score defaulting to 0)
and its replies are walked recursively; a `more` node contributes its
continuation ids; other kinds are skipped.  The Python function mutates
`comments` and `more_ids` accumulators; here each call returns the pair of
lists it appends, in the same order. -/
def extractNode : RNode → List Comment × List String
  | .t1 body score replies =>
    let fromReplies := extract_comment_nodes replies
    ((if bodyOk body then [⟨body.getD "", score.getD 0⟩] else []) ++ fromReplies.1,
     fromReplies.2)
  | .more ids => ([], ids)
  | .other => ([], [])
/-- `_extract_comment_nodes` of `fetch.py`, over a `children` list. -/
def extract_comment_nodes : RForest → List Comment × List String
  | .nil => ([], [])
  | .cons head tail =>
    let fromHead := extractNode head
    let fromTail := extract_comment_nodes tail
    (fromHead.1 ++ fromTail.1, fromHead.2 ++ fromTail.2)
end

/-- `MORE_BATCH = 100`: commenti per chiamata morechildren. -/
def MORE_BATCH : Nat := 100

/-- The batch slicing `more_ids[i : i + MORE_BATCH]` for
`i in range(0, len(more_ids), MORE_BATCH)`, via a fuel argument bounded by
the list length (the fetch loop only uses `n = MORE_BATCH = 100`). -/
def batchesOfAux (n : Nat) : Nat → List String → List (List String)
  | 0, _ => []
  | _, [] => []
  | fuel + 1, l => l.take n :: batchesOfAux n fuel (l.drop n)

def batchesOf (n : Nat) (l : List String) : List (List String) :=
  batchesOfAux n l.length l

/-- `_fetch_all_megathread_comments` of `fetch.py`, after the initial listing
has been obtained: `initialChildren` are the children of `data[1]["data"]`,
and `resolve` models one `/api/morechildren.json` request for a batch
(`none` = falsy response, the `continue` branch of the loop).

The first component is the `comments` accumulator that the function returns.
The second component records every id collected into a per-batch `extra_more`
list: in the source those lists are local to each loop iteration and are
never added to `more_ids`, so these ids are exactly the continuation ids that
remain unresolved when the function returns. -/
def fetch_all_megathread_comments
    (initialChildren : RForest)
    (resolve : List String → Option RForest) : List Comment × List String :=
  let init := extract_comment_nodes initialChildren
  (batchesOf MORE_BATCH init.2).foldl
    (fun acc batch =>
      match resolve batch with
      | none => acc
      | some things =>
        let ex := extract_comment_nodes things
        (acc.1 ++ ex.1, acc.2 ++ ex.2))
    (init.1, [])

/-- `POSITIVE_WORDS` of `fetch.py` (Italian sentiment lexicon). -/
def POSITIVE_WORDS : List String := [
  "bravo", "brava", "bravi", "brave", "fantastico", "fantastica",
  "bellissimo", "bellissima", "ottimo", "ottima", "perfetto", "perfetta",
  "straordinario", "straordinaria", "meraviglioso", "meravigliosa",
  "top", "migliore", "bello", "bella", "stupendo", "stupenda",
  "emozionante", "commovente", "potente", "forte", "epico", "epica",
  "capolavoro", "amore", "adoro", "tifo", "favorito", "favorita",
  "fenomeno", "talento", "applausi", "applauso", "vincitore", "vincitrice",
  "vince", "vincerà", "eccellente", "grandioso", "grandiosa", "magnifico",
  "magnifica", "sorprendente", "incantevole", "toccante", "originale",
  "creativo", "creativa", "innovativo", "innovativa", "coinvolgente",
  "energia", "energico", "esplosivo", "esplosiva", "unico", "unica",
  "pazzesco", "pazzesca", "incredibile", "piace", "benissimo", "super",
  "grande", "grandi", "wow", "bene", "simpatico", "simpatica"]

/-- `NEGATIVE_WORDS` of `fetch.py` (Italian sentiment lexicon). -/
def NEGATIVE_WORDS : List String := [
  "pessimo", "pessima", "orribile", "deludente", "delude", "scadente",
  "noioso", "noiosa", "sbagliato", "sbagliata", "odio", "detesto",
  "brutto", "brutta", "terribile", "disastroso", "disastrosa",
  "delusione", "banale", "banalità", "inutile", "scarso", "scarsa",
  "mediocre", "ridicolo", "ridicola", "imbarazzante", "spazzatura",
  "trash", "schifo", "schifoso", "schifosa", "orrendo", "orrenda",
  "insopportabile", "flop", "fallimento", "incapace", "scialbo", "scialba",
  "spento", "spenta", "piatto", "piatta", "vuoto", "vuota",
  "falso", "falsa", "copiato", "copiata", "antipatico", "antipatica",
  "stonato", "stonata", "pessimamente"]

/-- The character class of the regex `\w` (with `re.UNICODE`, the default for
`str`): modelled as ASCII alphanumerics, underscore, and every non-ASCII code
point (covering the accented letters appearing in Italian text). -/
def isWordChar (c : Char) : Bool :=
  c.isAlphanum || c = '_' || decide (128 ≤ c.toNat)

/-- `re.findall(r"\b\w+\b", text.lower())`: the maximal runs of word
characters of the lowercased text (for `\w+` runs, the `\b` anchors at both
ends always hold, so the pattern lists exactly the maximal runs). -/
def tokenize (text : String) : List String :=
  (((text.data.map Char.toLower).splitOnP (fun c => !isWordChar c)).filter
    (· ≠ [])).map fun w => ⟨w⟩

/-- Round half to even to an integer, the rounding mode of Python `round`
(here on exact rationals; the source rounds IEEE doubles). -/
def roundHalfEven (q : ℚ) : ℤ :=
  let f := ⌊q⌋
  let r := q - f
  if r < 1/2 then f
  else if (1 : ℚ)/2 < r then f + 1
  else if f % 2 = 0 then f else f + 1

/-- `round(x, 3)`: round to 3 decimal places, half to even. -/
def round3 (q : ℚ) : ℚ :=
  (roundHalfEven (q * 1000) : ℚ) / 1000

/-- `_compute_sentiment` of `fetch.py`: count lexicon hits over all tokens of
all texts (a token in both lexicons counts as positive only, per the
`if`/`elif`), then return `round((pos - neg) / total, 3)` when `total = pos +
neg` is nonzero and `0.0` otherwise. -/
def compute_sentiment (texts : List String) : ℚ :=
  let counts : Nat × Nat := texts.foldl (fun acc text =>
    (tokenize text).foldl (fun acc2 w =>
      if w ∈ POSITIVE_WORDS then (acc2.1 + 1, acc2.2)
      else if w ∈ NEGATIVE_WORDS then (acc2.1, acc2.2 + 1)
      else acc2) acc) (0, 0)
  let total := counts.1 + counts.2
  if total = 0 then 0
  else round3 (((counts.1 : ℚ) - (counts.2 : ℚ)) / ((counts.1 : ℚ) + (counts.2 : ℚ)))

/-- `_sentiment_label` of `fetch.py`. -/
def sentiment_label (score : ℚ) : String :=
  if score > 1/10 then "positivo"
  else if score < -(1/10) then "negativo"
  else "neutro"

/-- `str.lower`, modelled character-wise by `Char.toLower` (ASCII letters). -/
def lowerStr (s : String) : String := ⟨s.data.map Char.toLower⟩

/-- `str.upper`, modelled character-wise by `Char.toUpper` (ASCII letters). -/
def upperStr (s : String) : String := ⟨s.data.map Char.toUpper⟩

/-- Python's substring test `needle in hay`. -/
def pyIn (needle hay : String) : Bool := decide (needle.data <:+: hay.data)

/-- Python's `str.split()` with no argument: split on runs of whitespace,
discarding empty parts. -/
def pySplit (s : String) : List String :=
  ((s.data.splitOnP Char.isWhitespace).filter (· ≠ [])).map fun w => ⟨w⟩

/-- `_artist_in_text` of `fetch.py`: empty text never matches; otherwise
case-fold both strings, test the full name as a substring, then each
whitespace-delimited part of length ≥ 4. -/
def artist_in_text (artist text : String) : Bool :=
  if text = "" then false
  else
    let t := lowerStr text
    let a := lowerStr artist
    if pyIn a t then true
    else (pySplit a).any fun part => decide (4 ≤ part.length) && pyIn part t

/-- The tuple returned by `_metrics_for_artist`:
`(mentions, total_score, sentiment_score, sentiment_label, top_comments)`. -/
structure Metrics where
  mentions : Nat
  totalScore : Int
  sentScore : ℚ
  sentLabel : String
  topComments : String
deriving DecidableEq, Repr

/-- `_metrics_for_artist` of `fetch.py`.  `List.mergeSort` with
`le a b := b.score ≤ a.score` models Python's stable
`sorted(matching, key=lambda c: c["score"], reverse=True)`. -/
def metrics_for_artist (artist : String) (all_comments : List Comment) : Metrics :=
  let matching := all_comments.filter fun c => artist_in_text artist c.body
  let mentions := matching.length
  let total_score := (matching.map (·.score)).sum
  let texts := matching.map (·.body)
  let score := compute_sentiment texts
  let label := sentiment_label score
  let top3_bodies := (matching.mergeSort fun a b => decide (b.score ≤ a.score)).take 3
  let top_comments := String.intercalate " || " (top3_bodies.map (·.body))
  ⟨mentions, total_score, score, label, top_comments⟩

/-- Python `int(s)` on a string, modelled for optionally signed ASCII decimal
literals (`none` = `ValueError`; the surrounding-whitespace and underscore
forms accepted by Python are not modelled, the inputs of interest have
neither). -/
def pyInt (s : String) : Option Int :=
  let digitsVal : List Char → Int :=
    fun l => l.foldl (fun n c => n * 10 + ((c.toNat : Int) - 48)) 0
  match s.data with
  | [] => none
  | '-' :: rest =>
    if rest ≠ [] && rest.all Char.isDigit then some (-(digitsVal rest)) else none
  | '+' :: rest =>
    if rest ≠ [] && rest.all Char.isDigit then some (digitsVal rest) else none
  | l => if l.all Char.isDigit then some (digitsVal l) else none

/-- How a run of `main` in `pipeline.py` terminates: a normal return, a
`sys.exit(code)`, or an uncaught exception (which makes the interpreter exit
with a nonzero status). -/
inductive PExit where
  | success
  | exited (code : Nat)
  | raised
deriving DecidableEq, Repr

/-- Environment of one `pipeline.py` run: the `SERATA` variable and the
outcome of each effectful step.
* `fetchOk`: `fetch_data` returns a path (`false` = the megathread URL is
  missing and `fetch_data` calls `sys.exit(1)` itself).
* `pushOk`: the git add/commit/push in `push_to_github` succeed.
* `waitOk`: `wait_for_file_availability` returns `True` (`false` = it raises
  after exhausting its attempts).
* `dataSourceOk`: `create_data_source` returns an id (`false` = it raises).
* `report1/2/3`: outcome of each `create_report` attempt
  (`REPORT_MAX_RETRIES = 3`).
* `writeOk`: writing `report_id.txt` succeeds.
* `deleteOk`: the git commands in `delete_file_from_repo` succeed. -/
structure PipelineEnv where
  serata : String
  fetchOk : Bool
  pushOk : Bool
  waitOk : Bool
  dataSourceOk : Bool
  report1 : Bool
  report2 : Bool
  report3 : Bool
  writeOk : Bool
  deleteOk : Bool
deriving DecidableEq, Repr

/-- Observable trace of one `pipeline.py` run.
* `networkStarted`: `fetch_data` was entered (the first step that performs
  network requests; everything before it is local argument validation).
* `deleteAttempted`: `delete_file_from_repo` was invoked on the published CSV.
* `deleteSucceeded`: its git commands succeeded (its own failure is caught
  and only logged).
* `exit`: how the process terminated. -/
structure PipelineTrace where
  networkStarted : Bool
  deleteAttempted : Bool
  deleteSucceeded : Bool
  exit : PExit
deriving DecidableEq, Repr

/-- `main` of `pipeline.py` as a function from the outcome environment to the
observable trace, following the source line by line: the `SERATA` guard exits
before `fetch_data`; `push_to_github` exits on failure; a
`wait_for_file_availability` timeout raises *outside* the `try` block; the
`try` block covers `create_data_source`, the `create_report` retry loop and
the `report_id.txt` write, and its `except` handler runs
`delete_file_from_repo` and then `sys.exit(1)`. -/
def pipelineMain (env : PipelineEnv) : PipelineTrace :=
  if env.serata = "" then ⟨false, false, false, .exited 1⟩
  else
    match pyInt env.serata with
    | none => ⟨false, false, false, .exited 1⟩
    | some n =>
      if n < 1 || 5 < n then ⟨false, false, false, .exited 1⟩
      else if !env.fetchOk then ⟨true, false, false, .exited 1⟩
      else if !env.pushOk then ⟨true, false, false, .exited 1⟩
      else if !env.waitOk then ⟨true, false, false, .raised⟩
      else if !env.dataSourceOk then ⟨true, true, env.deleteOk, .exited 1⟩
      else if !(env.report1 || env.report2 || env.report3) then
        ⟨true, true, env.deleteOk, .exited 1⟩
      else if !env.writeOk then ⟨true, true, env.deleteOk, .exited 1⟩
      else ⟨true, false, false, .success⟩

/-- The `__main__` guard of `fetch.py`: the validated `SERATA` value that
`fetch_data` is called with, or `none` when the script exits with status 1
first (empty variable, unparsable integer, or out of the range 1..5). -/
def fetchMainGuard (serataEnv : String) : Option Int :=
  if serataEnv = "" then none
  else
    match pyInt serataEnv with
    | none => none
    | some n => if 1 ≤ n && n ≤ 5 then some n else none

/-- The Artist Matcher as worded in the spec (for comparison with
`artist_in_text`): case-fold both strings, test the full name as a
substring, otherwise test each whitespace-delimited part of length ≥ 4 as a
substring.  (No empty-text guard appears in this wording.) -/
def specArtistMatch (artist text : String) : Bool :=
  pyIn (lowerStr artist) (lowerStr text) ||
  (pySplit (lowerStr artist)).any fun part =>
    decide (4 ≤ part.length) && pyIn part (lowerStr text)

/-- `positive_count`: tokens (over all texts) lying in the positive
vocabulary. -/
def posTokenCount (texts : List String) : Nat :=
  ((texts.map tokenize).flatten).countP fun w => decide (w ∈ POSITIVE_WORDS)

/-- `negative_count`: tokens lying in the negative vocabulary and counted as
negative (the `elif` skips tokens already counted positive). -/
def negTokenCount (texts : List String) : Nat :=
  ((texts.map tokenize).flatten).countP fun w =>
    !decide (w ∈ POSITIVE_WORDS) && decide (w ∈ NEGATIVE_WORDS)

end StudioSanremo

namespace StudioSanremo

theorem toNat_ofNat_valid {n : Nat} (h : n.isValidChar) : (Char.ofNat n).toNat = n := by
  rw [Char.ofNat, dif_pos h]
  rfl

theorem toLower_toUpper (c : Char) : c.toUpper.toLower = c.toLower := by
  by_cases h : c.toNat ≥ 97 ∧ c.toNat ≤ 122
  · have hv : Nat.isValidChar (c.toNat - 32) := Or.inl (by omega)
    have ht : (Char.ofNat (c.toNat - 32)).toNat = c.toNat - 32 := toNat_ofNat_valid hv
    rw [Char.toUpper, if_pos h, Char.toLower, if_pos (by rw [ht]; omega)]
    rw [Char.toLower, if_neg (by omega), ht]
    have harg : c.toNat - 32 + 32 = c.toNat := by omega
    rw [harg, Char.ofNat_toNat]
  · rw [Char.toUpper, if_neg h]

theorem toLower_toLower (c : Char) : c.toLower.toLower = c.toLower := by
  by_cases h : c.toNat ≥ 65 ∧ c.toNat ≤ 90
  · have ht : (Char.ofNat (c.toNat + 32)).toNat = c.toNat + 32 :=
      toNat_ofNat_valid (Or.inl (by omega))
    have h1 : c.toLower = Char.ofNat (c.toNat + 32) := by
      rw [Char.toLower, if_pos h]
    rw [h1, Char.toLower, if_neg (by rw [ht]; omega)]
  · have h1 : c.toLower = c := by rw [Char.toLower, if_neg h]
    rw [h1]
    exact h1

theorem lowerStr_upperStr (s : String) : lowerStr (upperStr s) = lowerStr s := by
  have hc : (Char.toLower ∘ Char.toUpper) = Char.toLower := funext toLower_toUpper
  simp [lowerStr, upperStr, List.map_map, hc]

theorem lowerStr_lowerStr (s : String) : lowerStr (lowerStr s) = lowerStr s := by
  have hc : (Char.toLower ∘ Char.toLower) = Char.toLower := funext toLower_toLower
  simp [lowerStr, List.map_map, hc]

theorem lowerStr_eq_empty (s : String) : (lowerStr s = "") ↔ (s = "") := by
  constructor
  · intro h
    have : (lowerStr s).data = [] := by rw [h]
    simp [lowerStr] at this
    cases s
    simp_all
  · intro h
    rw [h]
    rfl

theorem upperStr_eq_empty (s : String) : (upperStr s = "") ↔ (s = "") := by
  constructor
  · intro h
    have : (upperStr s).data = [] := by rw [h]
    simp [upperStr] at this
    cases s
    simp_all
  · intro h
    rw [h]
    rfl

end StudioSanremo

namespace StudioSanremo

/-- C5 (counterexample): at `artist = ""` and `text = ""` the claimed iff
fails: after case-folding, the full artist name `""` *is* a substring of the
text `""` (so the spec's condition holds), but `_artist_in_text` returns
`False` because of its initial `if not text` guard. -/
theorem artist_matcher_claim_fails_on_empty :
    specArtistMatch "" "" = true ∧ artist_in_text "" "" = false := by
  decide

/-- C5 (amended): `_artist_in_text artist text` equals the spec's matching
condition guarded by text nonemptiness — the two differ only at
`artist = ""`, `text = ""` — and swapping which of the two inputs is
uppercased does not change the result. -/
theorem artist_matcher_spec (artist text : String) :
    (artist_in_text artist text =
      if text = "" then false else specArtistMatch artist text) ∧
    artist_in_text (upperStr artist) (lowerStr text) =
      artist_in_text (lowerStr artist) (upperStr text) := by
  constructor
  · by_cases ht : text = ""
    · simp [artist_in_text, ht]
    · by_cases hp : pyIn (lowerStr artist) (lowerStr text)
      · simp [artist_in_text, specArtistMatch, ht, hp]
      · simp [artist_in_text, specArtistMatch, ht, hp]
  · by_cases ht : text = ""
    · have h1 : lowerStr text = "" := by rw [ht]; rfl
      have h2 : upperStr text = "" := by rw [ht]; rfl
      simp [artist_in_text, h1, h2]
    · have h1 : ¬ (lowerStr text = "") := fun h => ht ((lowerStr_eq_empty text).mp h)
      have h2 : ¬ (upperStr text = "") := fun h => ht ((upperStr_eq_empty text).mp h)
      simp only [artist_in_text, if_neg h1, if_neg h2,
        lowerStr_upperStr, lowerStr_lowerStr]

end StudioSanremo

namespace StudioSanremo

/-- C3: the aggregator's mention count is the number of corpus comments whose
body the Artist Matcher accepts, and the total vote score is the sum of
`score` over exactly those comments; on the spec's synthetic corpus of 5
comments with 2 matching "Artist A", mentions = 2. -/
theorem mentions_and_score_match_matcher (artist : String) (all_comments : List Comment) :
    ((metrics_for_artist artist all_comments).mentions =
      all_comments.countP (fun c => artist_in_text artist c.body)) ∧
    ((metrics_for_artist artist all_comments).totalScore =
      ((all_comments.filter fun c => artist_in_text artist c.body).map (·.score)).sum) ∧
    (metrics_for_artist "Artist A"
      [⟨"Artist A wins", 10⟩, ⟨"ARTIST A!!", 2⟩, ⟨"boring", 5⟩,
       ⟨"great show", 7⟩, ⟨"meh", 1⟩]).mentions = 2 := by
  refine ⟨?_, rfl, by decide⟩
  simp [metrics_for_artist, List.countP_eq_length_filter]

/-- C9: an artist with no matching comment (in particular on an empty corpus)
yields the total row (0, 0, 0.0, "neutro", ""), with no failure. -/
theorem no_match_yields_zero_row (artist : String) (all_comments : List Comment)
    (h : ∀ c ∈ all_comments, artist_in_text artist c.body = false) :
    metrics_for_artist artist all_comments = ⟨0, 0, 0, "neutro", ""⟩ := by
  have hf : (all_comments.filter fun c => artist_in_text artist c.body) = [] :=
    List.filter_eq_nil_iff.mpr (by simpa using h)
  have hlabel : sentiment_label 0 = "neutro" := by
    rw [sentiment_label, if_neg (by norm_num), if_neg (by norm_num)]
  simp [metrics_for_artist, hf, compute_sentiment, hlabel]
  rfl

/-- C9 witness: the zero row at a concrete nonmatching corpus. -/
theorem no_match_yields_zero_row_witness :
    metrics_for_artist "Mahmood" [⟨"boring", 3⟩, ⟨"great show", 7⟩] =
      ⟨0, 0, 0, "neutro", ""⟩ :=
  no_match_yields_zero_row "Mahmood" [⟨"boring", 3⟩, ⟨"great show", 7⟩]
    (by intro c hc; fin_cases hc <;> decide)

end StudioSanremo

namespace StudioSanremo

mutual
theorem extractNode_body_admissible : ∀ (n : RNode) (c : Comment),
    c ∈ (extractNode n).1 →
    c.body ≠ "" ∧ c.body ≠ "[deleted]" ∧ c.body ≠ "[removed]"
  | .t1 body score replies, c, h => by
    rw [extractNode] at h
    simp only [List.mem_append] at h
    rcases h with h | h
    · by_cases hb : bodyOk body
      · simp only [if_pos hb, List.mem_singleton] at h
        subst h
        simp only [bodyOk, Bool.and_eq_true, decide_eq_true_eq, ne_eq] at hb
        exact ⟨hb.1.1, hb.1.2, hb.2⟩
      · simp [if_neg hb] at h
    · exact extract_body_admissible replies c h
  | .more ids, c, h => by simp [extractNode] at h
  | .other, c, h => by simp [extractNode] at h
theorem extract_body_admissible : ∀ (f : RForest) (c : Comment),
    c ∈ (extract_comment_nodes f).1 →
    c.body ≠ "" ∧ c.body ≠ "[deleted]" ∧ c.body ≠ "[removed]"
  | .nil, c, h => by simp [extract_comment_nodes] at h
  | .cons hd tl, c, h => by
    rw [extract_comment_nodes] at h
    simp only [List.mem_append] at h
    rcases h with h | h
    · exact extractNode_body_admissible hd c h
    · exact extract_body_admissible tl c h
end

end StudioSanremo

namespace StudioSanremo

/-- C10: the walk records no comment whose body is empty (including a missing
body, which defaults to empty) or one of the sentinels "[deleted]" and
"[removed]"; a `t1` node with such a body contributes nothing beyond the walk
of its replies; and a recorded comment whose score field is absent is given
score 0. -/
theorem exclusion_and_default_score :
    (∀ (f : RForest) (c : Comment), c ∈ (extract_comment_nodes f).1 →
      c.body ≠ "" ∧ c.body ≠ "[deleted]" ∧ c.body ≠ "[removed]") ∧
    (∀ (body : Option String) (score : Option Int) (replies : RForest),
      (body = none ∨ body = some "" ∨ body = some "[deleted]" ∨
        body = some "[removed]") →
      extractNode (.t1 body score replies) = extract_comment_nodes replies) ∧
    (∀ (body : Option String) (replies : RForest), bodyOk body = true →
      (extractNode (.t1 body none replies)).1 =
        ⟨body.getD "", 0⟩ :: (extract_comment_nodes replies).1) := by
  refine ⟨fun f c h => extract_body_admissible f c h, ?_, ?_⟩
  · intro body score replies h
    have hb : bodyOk body = false := by
      rcases h with h | h | h | h <;> subst h <;> rfl
    rw [extractNode]
    simp [hb]
  · intro body replies h
    rw [extractNode]
    simp [h, Option.getD]

/-- C10 witness: a concrete recorded comment, a concrete skipped sentinel
node, and a concrete missing-score default. -/
theorem exclusion_and_default_score_witness :
    ((⟨"ok", 0⟩ : Comment).body ≠ "" ∧ (⟨"ok", 0⟩ : Comment).body ≠ "[deleted]" ∧
      (⟨"ok", 0⟩ : Comment).body ≠ "[removed]") ∧
    extractNode (.t1 (some "[deleted]") (some 5) .nil) = extract_comment_nodes .nil ∧
    (extractNode (.t1 (some "hi") none .nil)).1 =
      ⟨"hi", 0⟩ :: (extract_comment_nodes .nil).1 :=
  ⟨exclusion_and_default_score.1 (.cons (.t1 (some "ok") none .nil) .nil)
      ⟨"ok", 0⟩ (by decide),
   exclusion_and_default_score.2.1 (some "[deleted]") (some 5) .nil
      (Or.inr (Or.inr (Or.inl rfl))),
   exclusion_and_default_score.2.2 (some "hi") .nil (by decide)⟩

end StudioSanremo

namespace StudioSanremo

/-- C8: an event index that does not parse as an integer or lies outside
1..5 makes both entry points exit with status 1 before any network step:
`pipeline.py` exits before `fetch_data` is entered, and the `__main__` guard
of `fetch.py` refuses the value. -/
theorem invalid_serata_exits_before_network (env : PipelineEnv)
    (h : pyInt env.serata = none ∨
      ∃ n, pyInt env.serata = some n ∧ (n < 1 ∨ 5 < n)) :
    (pipelineMain env).networkStarted = false ∧
    (pipelineMain env).exit = PExit.exited 1 ∧
    fetchMainGuard env.serata = none := by
  rcases h with h | ⟨n, hn, hr⟩
  · by_cases hs : env.serata = "" <;>
      simp [pipelineMain, fetchMainGuard, hs, h]
  · have hs : env.serata ≠ "" := by
      intro hs
      rw [hs] at hn
      simp [pyInt] at hn
    have hcond : (n < 1 || 5 < n) = true := by
      rcases hr with hr | hr <;> simp [hr]
    have hcond2 : (1 ≤ n && n ≤ 5) = false := by
      rcases hr with hr | hr <;> simp <;> omega
    simp [pipelineMain, fetchMainGuard, hs, hn, hcond, hcond2]

/-- C8 witness: the inputs "abc", "0" and "6" all exit with status 1 before
the network is touched. -/
theorem invalid_serata_exits_before_network_witness :
    ((pipelineMain ⟨"abc", true, true, true, true, true, true, true, true, true⟩).networkStarted = false ∧
     (pipelineMain ⟨"abc", true, true, true, true, true, true, true, true, true⟩).exit = PExit.exited 1 ∧
     fetchMainGuard "abc" = none) ∧
    ((pipelineMain ⟨"0", true, true, true, true, true, true, true, true, true⟩).networkStarted = false ∧
     (pipelineMain ⟨"0", true, true, true, true, true, true, true, true, true⟩).exit = PExit.exited 1 ∧
     fetchMainGuard "0" = none) ∧
    ((pipelineMain ⟨"6", true, true, true, true, true, true, true, true, true⟩).networkStarted = false ∧
     (pipelineMain ⟨"6", true, true, true, true, true, true, true, true, true⟩).exit = PExit.exited 1 ∧
     fetchMainGuard "6" = none) :=
  ⟨invalid_serata_exits_before_network _ (Or.inl (by decide)),
   invalid_serata_exits_before_network _ (Or.inr ⟨0, by decide, Or.inl (by decide)⟩),
   invalid_serata_exits_before_network _ (Or.inr ⟨6, by decide, Or.inr (by decide)⟩)⟩

/-- C7 (counterexample): with a valid `SERATA`, a successful fetch and
publish, and a `wait_for_file_availability` that exhausts its attempts and
raises, the exception propagates outside the `try` block: the process dies
without `delete_file_from_repo` ever being invoked, although a step after the
successful publish failed fatally. -/
theorem wait_failure_skips_compensation :
    ((pipelineMain ⟨"3", true, true, false, true, true, true, true, true, true⟩).deleteAttempted
        = false) ∧
    (pipelineMain ⟨"3", true, true, false, true, true, true, true, true, true⟩).exit
        = PExit.raised ∧
    (⟨"3", true, true, false, true, true, true, true, true, true⟩ : PipelineEnv).pushOk
        = true ∧
    (⟨"3", true, true, false, true, true, true, true, true, true⟩ : PipelineEnv).waitOk
        = false := by
  decide

/-- C7 (amended): after a successful publish *and* availability wait, a fatal
failure of data-source creation or of report creation with all three retries
exhausted triggers the compensating `delete_file_from_repo` before
`sys.exit(1)`; the deletion's own success does not affect the exit (its
failure is only logged).  A fatal availability-wait failure, by contrast,
exits without compensation. -/
theorem compensation_on_api_failure (env : PipelineEnv) (n : Int)
    (hn : pyInt env.serata = some n) (h1 : 1 ≤ n) (h5 : n ≤ 5)
    (hf : env.fetchOk = true) (hp : env.pushOk = true) (hw : env.waitOk = true)
    (hfail : env.dataSourceOk = false ∨
      (env.report1 || env.report2 || env.report3) = false) :
    (pipelineMain env).deleteAttempted = true ∧
    (pipelineMain env).exit = PExit.exited 1 ∧
    (pipelineMain env).deleteSucceeded = env.deleteOk := by
  have hs : env.serata ≠ "" := by
    intro hs
    rw [hs] at hn
    simp [pyInt] at hn
  have hcond : (n < 1 || 5 < n) = false := by
    simp
    omega
  rcases hfail with hds | hrep
  · simp [pipelineMain, hs, hn, hcond, hf, hp, hw, hds]
  · have hds := env.dataSourceOk
    by_cases hd : env.dataSourceOk = true
    · simp [pipelineMain, hs, hn, hcond, hf, hp, hw, hd, hrep]
    · simp only [Bool.not_eq_true] at hd
      simp [pipelineMain, hs, hn, hcond, hf, hp, hw, hd]

/-- C7 witness: concrete runs hitting the data-source failure and the
exhausted report retries, with the deletion itself failing in the second run
(exit status unchanged). -/
theorem compensation_on_api_failure_witness :
    ((pipelineMain ⟨"1", true, true, true, false, true, true, true, true, true⟩).deleteAttempted = true ∧
     (pipelineMain ⟨"1", true, true, true, false, true, true, true, true, true⟩).exit = PExit.exited 1 ∧
     (pipelineMain ⟨"1", true, true, true, false, true, true, true, true, true⟩).deleteSucceeded = true) ∧
    ((pipelineMain ⟨"2", true, true, true, true, false, false, false, true, false⟩).deleteAttempted = true ∧
     (pipelineMain ⟨"2", true, true, true, true, false, false, false, true, false⟩).exit = PExit.exited 1 ∧
     (pipelineMain ⟨"2", true, true, true, true, false, false, false, true, false⟩).deleteSucceeded = false) :=
  ⟨compensation_on_api_failure _ 1 (by decide) (by decide) (by decide)
      (by decide) (by decide) (by decide) (Or.inl (by decide)),
   compensation_on_api_failure _ 2 (by decide) (by decide) (by decide)
      (by decide) (by decide) (by decide) (Or.inr (by decide))⟩

end StudioSanremo

namespace StudioSanremo

/-- Effect of the batch-resolution loop of `_fetch_all_megathread_comments`
on the occurrence count of a fixed comment. -/
theorem fetch_loop_count (resolve : List String → Option RForest) (x : Comment)
    (batches : List (List String)) :
    ∀ acc : List Comment × List String,
    ((batches.foldl (fun acc batch =>
        match resolve batch with
        | none => acc
        | some things =>
          let ex := extract_comment_nodes things
          (acc.1 ++ ex.1, acc.2 ++ ex.2)) acc).1.count x) =
      acc.1.count x + (batches.map fun b =>
        match resolve b with
        | none => 0
        | some things => (extract_comment_nodes things).1.count x).sum := by
  induction batches with
  | nil => intro acc; simp
  | cons b bs ih =>
    intro acc
    rw [List.foldl_cons, List.map_cons, List.sum_cons]
    cases hr : resolve b with
    | none =>
      simp only [hr]
      rw [ih]
      omega
    | some things =>
      simp only [hr]
      rw [ih]
      simp only [List.count_append]
      omega

/-- C2 (amended): the fetcher performs no deduplication — a comment occurs in
the returned corpus exactly as often as the tree walk yields it from the
initial listing plus each resolved batch; in particular it occurs at most
once whenever the responses yield it at most once in total. -/
theorem corpus_count_eq_responses_count
    (initial : RForest) (resolve : List String → Option RForest) (x : Comment) :
    ((fetch_all_megathread_comments initial resolve).1.count x =
      (extract_comment_nodes initial).1.count x +
      ((batchesOf MORE_BATCH (extract_comment_nodes initial).2).map fun b =>
        match resolve b with
        | none => 0
        | some things => (extract_comment_nodes things).1.count x).sum) ∧
    ((extract_comment_nodes initial).1.count x +
      ((batchesOf MORE_BATCH (extract_comment_nodes initial).2).map fun b =>
        match resolve b with
        | none => 0
        | some things => (extract_comment_nodes things).1.count x).sum ≤ 1 →
      (fetch_all_megathread_comments initial resolve).1.count x ≤ 1) := by
  have h := fetch_loop_count resolve x
    (batchesOf MORE_BATCH (extract_comment_nodes initial).2)
    ((extract_comment_nodes initial).1, ([] : List String))
  constructor
  · exact h
  · intro hle
    calc (fetch_all_megathread_comments initial resolve).1.count x
        = _ := h
      _ ≤ 1 := hle

/-- C2 witness: a corpus built from one listed comment and one distinct
comment delivered by a resolved batch has each comment at most once. -/
theorem corpus_count_eq_responses_count_witness :
    (fetch_all_megathread_comments
        (.cons (.t1 (some "hello") (some 1) .nil) (.cons (.more ["a"]) .nil))
        (fun b => if b = ["a"]
          then some (.cons (.t1 (some "world") (some 2) .nil) .nil)
          else none)).1.count ⟨"hello", 1⟩ ≤ 1 :=
  (corpus_count_eq_responses_count
      (.cons (.t1 (some "hello") (some 1) .nil) (.cons (.more ["a"]) .nil))
      (fun b => if b = ["a"]
        then some (.cons (.t1 (some "world") (some 2) .nil) .nil)
        else none)
      ⟨"hello", 1⟩).2 (by decide)

/-- C2 (counterexample): the same comment delivered both by the initial
listing and by a resolved 'more' batch is recorded twice in the corpus — the
fetcher has no deduplication, so "each comment id at most once" fails. -/
theorem comment_from_listing_and_more_counted_twice :
    (fetch_all_megathread_comments
        (.cons (.t1 (some "hello") (some 1) .nil) (.cons (.more ["a"]) .nil))
        (fun b => if b = ["a"]
          then some (.cons (.t1 (some "hello") (some 1) .nil) .nil)
          else none)).1.count ⟨"hello", 1⟩ = 2 := by
  decide

/-- C1: the continuation ids discovered while walking a resolution response
are collected into a loop-local `extra_more` list that is never appended to
`more_ids`, so they are silently dropped instead of being drained in later
batches.  Failing input: the initial listing holds one placeholder `m1`; its
resolution returns another placeholder `m2`, whose own resolution would
return the comment "deep".  The run resolves only `m1`, leaves `m2` pending
(second conjunct) and returns a corpus without "deep" (first conjunct), even
though `m2` resolves to it (third conjunct) — contradicting the function's
own docstring ("scarica ... TUTTI i suoi commenti, seguendo i link
'more'"). -/
theorem more_ids_from_resolution_are_dropped :
    ((fetch_all_megathread_comments (.cons (.more ["m1"]) .nil)
        (fun b => if b = ["m1"] then some (.cons (.more ["m2"]) .nil)
          else if b = ["m2"] then some (.cons (.t1 (some "deep") (some 7) .nil) .nil)
          else none)).1 = []) ∧
    ((fetch_all_megathread_comments (.cons (.more ["m1"]) .nil)
        (fun b => if b = ["m1"] then some (.cons (.more ["m2"]) .nil)
          else if b = ["m2"] then some (.cons (.t1 (some "deep") (some 7) .nil) .nil)
          else none)).2 = ["m2"]) ∧
    (((fun b => if b = ["m1"] then some (.cons (.more ["m2"]) .nil)
          else if b = ["m2"] then some (.cons (.t1 (some "deep") (some 7) .nil) .nil)
          else none) ["m2"] :
        Option RForest).map (fun f => (extract_comment_nodes f).1) =
      some [⟨"deep", 7⟩]) := by
  refine ⟨by decide, by decide, by decide⟩

end StudioSanremo

namespace StudioSanremo

theorem scoreDesc_trans : ∀ a b c : Comment,
    decide (b.score ≤ a.score) = true → decide (c.score ≤ b.score) = true →
    decide (c.score ≤ a.score) = true := by
  intro a b c hab hbc
  simp only [decide_eq_true_eq] at hab hbc ⊢
  omega

theorem scoreDesc_total : ∀ a b : Comment,
    (decide (b.score ≤ a.score) || decide (a.score ≤ b.score)) = true := by
  intro a b
  rcases Int.le_total a.score b.score with h | h <;> simp [h]

/-- Python's `sorted(..., key=lambda c: c["score"], reverse=True)` as
modelled by `mergeSort`: a permutation, sorted by descending score, and
stable (for every score value, filtering the sorted list gives exactly the
filtered original list, in its original order). -/
theorem sortDesc_perm_sorted_stable (l : List Comment) :
    ((l.mergeSort fun a b => decide (b.score ≤ a.score)).Perm l) ∧
    ((l.mergeSort fun a b => decide (b.score ≤ a.score)).Pairwise
      fun a b => b.score ≤ a.score) ∧
    (∀ s : Int,
      (l.mergeSort fun a b => decide (b.score ≤ a.score)).filter
          (fun c => decide (c.score = s)) =
        l.filter fun c => decide (c.score = s)) := by
  refine ⟨List.mergeSort_perm l _, ?_, ?_⟩
  · have h := List.sorted_mergeSort scoreDesc_trans scoreDesc_total l
    exact h.imp (by intro a b hab; simpa using hab)
  · intro s
    have hpw : (l.filter fun c => decide (c.score = s)).Pairwise
        (fun a b => decide (b.score ≤ a.score) = true) := by
      apply List.pairwise_of_forall_mem_list
      intro a ha b hb
      have h1 := (List.mem_filter.mp ha).2
      have h2 := (List.mem_filter.mp hb).2
      simp only [decide_eq_true_eq] at h1 h2 ⊢
      omega
    have hsub : List.Sublist (l.filter fun c => decide (c.score = s))
        (l.mergeSort fun a b => decide (b.score ≤ a.score)) :=
      List.sublist_mergeSort scoreDesc_trans scoreDesc_total hpw (List.filter_sublist l)
    have hself : ((l.filter fun c => decide (c.score = s)).filter
        fun c => decide (c.score = s)) = l.filter fun c => decide (c.score = s) :=
      List.filter_eq_self.mpr fun a ha => (List.mem_filter.mp ha).2
    have h4 := hsub.filter fun c => decide (c.score = s)
    rw [hself] at h4
    have h5 := ((List.mergeSort_perm l fun a b => decide (b.score ≤ a.score)).filter
      fun c => decide (c.score = s)).length_eq
    exact (h4.eq_of_length h5.symm).symm

/-- C6: the representative comments are the up-to-3 matching comments of
highest score: `topComments` joins the first 3 entries of a list that is a
permutation of the matching comments, sorted by descending score, and stable
— for each score value the order of the original corpus is kept; on the
spec's example with scores [10,10,5,3,1] the two score-10 comments keep
their corpus order. -/
theorem top_comments_stable_top3 (artist : String) (all_comments : List Comment) :
    ((metrics_for_artist artist all_comments).topComments =
      String.intercalate " || "
        ((((all_comments.filter fun c => artist_in_text artist c.body).mergeSort
            fun a b => decide (b.score ≤ a.score)).take 3).map (·.body))) ∧
    (((all_comments.filter fun c => artist_in_text artist c.body).mergeSort
        fun a b => decide (b.score ≤ a.score)).Perm
      (all_comments.filter fun c => artist_in_text artist c.body)) ∧
    (((all_comments.filter fun c => artist_in_text artist c.body).mergeSort
        fun a b => decide (b.score ≤ a.score)).Pairwise
      fun a b => b.score ≤ a.score) ∧
    (∀ s : Int,
      ((all_comments.filter fun c => artist_in_text artist c.body).mergeSort
          fun a b => decide (b.score ≤ a.score)).filter
          (fun c => decide (c.score = s)) =
        (all_comments.filter fun c => artist_in_text artist c.body).filter
          fun c => decide (c.score = s)) ∧
    ((([⟨"c1", 10⟩, ⟨"c2", 10⟩, ⟨"c3", 5⟩, ⟨"c4", 3⟩, ⟨"c5", 1⟩] :
        List Comment).mergeSort fun a b => decide (b.score ≤ a.score)).take 3 =
      [⟨"c1", 10⟩, ⟨"c2", 10⟩, ⟨"c3", 5⟩]) := by
  have hprops := sortDesc_perm_sorted_stable
    (all_comments.filter fun c => artist_in_text artist c.body)
  refine ⟨rfl, hprops.1, hprops.2.1, hprops.2.2, ?_⟩
  have hsorted : ([⟨"c1", 10⟩, ⟨"c2", 10⟩, ⟨"c3", 5⟩, ⟨"c4", 3⟩, ⟨"c5", 1⟩] :
      List Comment).Pairwise (fun a b => decide (b.score ≤ a.score) = true) := by
    decide
  rw [List.mergeSort_of_sorted hsorted]
  rfl

end StudioSanremo

namespace StudioSanremo

theorem roundHalfEven_le {q : ℚ} {B : ℤ} (h : q ≤ (B : ℚ)) : roundHalfEven q ≤ B := by
  have hfl : ⌊q⌋ ≤ B := by
    have h2 := Int.floor_le_floor h
    rwa [Int.floor_intCast] at h2
  show (if q - ⌊q⌋ < 1/2 then ⌊q⌋
    else if (1 : ℚ)/2 < q - ⌊q⌋ then ⌊q⌋ + 1
    else if ⌊q⌋ % 2 = 0 then ⌊q⌋ else ⌊q⌋ + 1) ≤ B
  split_ifs with h1 h2 h3
  · exact hfl
  · have hlt : (⌊q⌋ : ℚ) + 1/2 < q := by linarith
    have hc : (⌊q⌋ : ℚ) < (B : ℚ) := by linarith
    have : ⌊q⌋ < B := by exact_mod_cast hc
    omega
  · exact hfl
  · push_neg at h1 h2
    have heq : (⌊q⌋ : ℚ) + 1/2 ≤ q := by linarith
    have hc : (⌊q⌋ : ℚ) < (B : ℚ) := by linarith
    have : ⌊q⌋ < B := by exact_mod_cast hc
    omega

theorem le_roundHalfEven {q : ℚ} {B : ℤ} (h : (B : ℚ) ≤ q) : B ≤ roundHalfEven q := by
  have hfl : B ≤ ⌊q⌋ := Int.le_floor.mpr h
  show B ≤ (if q - ⌊q⌋ < 1/2 then ⌊q⌋
    else if (1 : ℚ)/2 < q - ⌊q⌋ then ⌊q⌋ + 1
    else if ⌊q⌋ % 2 = 0 then ⌊q⌋ else ⌊q⌋ + 1)
  split_ifs <;> omega

theorem round3_bounds {q : ℚ} (h1 : -1 ≤ q) (h2 : q ≤ 1) :
    -1 ≤ round3 q ∧ round3 q ≤ 1 := by
  have hu : q * 1000 ≤ ((1000 : ℤ) : ℚ) := by push_cast; linarith
  have hl : (((-1000) : ℤ) : ℚ) ≤ q * 1000 := by push_cast; linarith
  have h3 := roundHalfEven_le hu
  have h4 := le_roundHalfEven hl
  constructor
  · rw [round3, le_div_iff₀ (by norm_num : (0:ℚ) < 1000)]
    have hc : ((-1000 : ℤ) : ℚ) ≤ (roundHalfEven (q * 1000) : ℚ) := by
      exact_mod_cast h4
    push_cast at hc ⊢
    linarith
  · rw [round3, div_le_one (by norm_num : (0:ℚ) < 1000)]
    exact_mod_cast h3

theorem round3_zero : round3 0 = 0 := by
  have h0 : roundHalfEven 0 = 0 := by
    show (if (0 : ℚ) - ⌊(0 : ℚ)⌋ < 1/2 then ⌊(0 : ℚ)⌋
      else if (1 : ℚ)/2 < (0 : ℚ) - ⌊(0 : ℚ)⌋ then ⌊(0 : ℚ)⌋ + 1
      else if ⌊(0 : ℚ)⌋ % 2 = 0 then ⌊(0 : ℚ)⌋ else ⌊(0 : ℚ)⌋ + 1) = 0
    norm_num
  rw [round3]
  norm_num [h0]

theorem token_fold_count (ws : List String) : ∀ p q : Nat,
    (ws.foldl (fun acc2 w =>
      if w ∈ POSITIVE_WORDS then (acc2.1 + 1, acc2.2)
      else if w ∈ NEGATIVE_WORDS then (acc2.1, acc2.2 + 1)
      else acc2) (p, q)) =
    (p + ws.countP (fun w => decide (w ∈ POSITIVE_WORDS)),
     q + ws.countP fun w =>
       !decide (w ∈ POSITIVE_WORDS) && decide (w ∈ NEGATIVE_WORDS)) := by
  induction ws with
  | nil => intro p q; simp
  | cons w ws ih =>
    intro p q
    rw [List.foldl_cons, List.countP_cons, List.countP_cons]
    by_cases hp : w ∈ POSITIVE_WORDS
    · simp only [if_pos hp, ih]
      simp [hp]
      omega
    · by_cases hn : w ∈ NEGATIVE_WORDS
      · simp only [if_neg hp, if_pos hn, ih]
        simp [hp, hn]
        omega
      · simp only [if_neg hp, if_neg hn, ih]
        simp [hp, hn]

theorem texts_fold_count (texts : List String) : ∀ p q : Nat,
    (texts.foldl (fun acc text =>
      (tokenize text).foldl (fun acc2 w =>
        if w ∈ POSITIVE_WORDS then (acc2.1 + 1, acc2.2)
        else if w ∈ NEGATIVE_WORDS then (acc2.1, acc2.2 + 1)
        else acc2) acc) (p, q)) =
    (p + posTokenCount texts, q + negTokenCount texts) := by
  induction texts with
  | nil => intro p q; simp [posTokenCount, negTokenCount]
  | cons t ts ih =>
    intro p q
    rw [List.foldl_cons, token_fold_count (tokenize t) p q, ih]
    simp only [posTokenCount, negTokenCount, List.map_cons, List.flatten_cons,
      List.countP_append, Prod.mk.injEq]
    omega

theorem compute_sentiment_eq (texts : List String) :
    compute_sentiment texts =
      if posTokenCount texts + negTokenCount texts = 0 then 0
      else round3 (((posTokenCount texts : ℚ) - (negTokenCount texts : ℚ)) /
        ((posTokenCount texts : ℚ) + (negTokenCount texts : ℚ))) := by
  rw [compute_sentiment]
  rw [texts_fold_count texts 0 0]
  simp

end StudioSanremo

namespace StudioSanremo

/-- C4: the sentiment scorer counts lowercase word tokens against the two
fixed vocabularies and returns `(pos − neg)/(pos + neg)` rounded to 3
decimals (0.0 when no token matched either vocabulary); the result always
lies in [-1, 1] and is an integer multiple of 1/1000; the label is
"positivo" exactly above 0.1, "negativo" exactly below −0.1 and "neutro"
in between — so zero matches and tied counts both give score 0.0 and label
"neutro". -/
theorem compute_sentiment_spec (texts : List String) :
    (compute_sentiment texts =
      if posTokenCount texts + negTokenCount texts = 0 then 0
      else round3 (((posTokenCount texts : ℚ) - (negTokenCount texts : ℚ)) /
        ((posTokenCount texts : ℚ) + (negTokenCount texts : ℚ)))) ∧
    (-1 ≤ compute_sentiment texts ∧ compute_sentiment texts ≤ 1) ∧
    (∃ k : ℤ, compute_sentiment texts = (k : ℚ) / 1000) ∧
    (∀ q : ℚ, (1/10 < q → sentiment_label q = "positivo") ∧
      (q < -(1/10) → sentiment_label q = "negativo") ∧
      (-(1/10) ≤ q → q ≤ 1/10 → sentiment_label q = "neutro")) ∧
    (posTokenCount texts = negTokenCount texts →
      compute_sentiment texts = 0 ∧
      sentiment_label (compute_sentiment texts) = "neutro") := by
  have hlabel : ∀ q : ℚ, (1/10 < q → sentiment_label q = "positivo") ∧
      (q < -(1/10) → sentiment_label q = "negativo") ∧
      (-(1/10) ≤ q → q ≤ 1/10 → sentiment_label q = "neutro") := by
    intro q
    refine ⟨fun h => ?_, fun h => ?_, fun h1 h2 => ?_⟩
    · rw [sentiment_label, if_pos h]
    · rw [sentiment_label, if_neg (by linarith), if_pos h]
    · rw [sentiment_label, if_neg (by linarith), if_neg (by linarith)]
  have hbounds : -1 ≤ compute_sentiment texts ∧ compute_sentiment texts ≤ 1 := by
    rw [compute_sentiment_eq]
    split_ifs with h0
    · norm_num
    · have h1 : (1 : ℚ) ≤ (posTokenCount texts : ℚ) + (negTokenCount texts : ℚ) := by
        have := Nat.one_le_iff_ne_zero.mpr h0
        exact_mod_cast this
      have hp : (0 : ℚ) ≤ (posTokenCount texts : ℚ) := Nat.cast_nonneg _
      have hn : (0 : ℚ) ≤ (negTokenCount texts : ℚ) := Nat.cast_nonneg _
      have hd : (0 : ℚ) < (posTokenCount texts : ℚ) + (negTokenCount texts : ℚ) := by
        linarith
      have hup : ((posTokenCount texts : ℚ) - (negTokenCount texts : ℚ)) /
          ((posTokenCount texts : ℚ) + (negTokenCount texts : ℚ)) ≤ 1 := by
        rw [div_le_one hd]
        linarith
      have hlo : -1 ≤ ((posTokenCount texts : ℚ) - (negTokenCount texts : ℚ)) /
          ((posTokenCount texts : ℚ) + (negTokenCount texts : ℚ)) := by
        rw [le_div_iff₀ hd]
        linarith
      exact round3_bounds hlo hup
  refine ⟨compute_sentiment_eq texts, hbounds, ?_, hlabel, ?_⟩
  · rw [compute_sentiment_eq]
    split_ifs with h0
    · exact ⟨0, by norm_num⟩
    · exact ⟨roundHalfEven ((((posTokenCount texts : ℚ) - (negTokenCount texts : ℚ)) /
        ((posTokenCount texts : ℚ) + (negTokenCount texts : ℚ))) * 1000), rfl⟩
  · intro heq
    have hzero : compute_sentiment texts = 0 := by
      rw [compute_sentiment_eq]
      split_ifs with h0
      · rfl
      · have hnum : (posTokenCount texts : ℚ) - (negTokenCount texts : ℚ) = 0 := by
          rw [heq]
          ring
        rw [hnum, zero_div, round3_zero]
    refine ⟨hzero, ?_⟩
    rw [hzero]
    exact (hlabel 0).2.2 (by norm_num) (by norm_num)

/-- C4 witness: on the spec's end-to-end example the lexicon hits are
"bravo" (+) and "schifo" (−), so the counts tie: score 0.0 and label
"neutro". -/
theorem compute_sentiment_spec_witness :
    compute_sentiment ["Bravo Mahmood", "Mahmood che schifo"] = 0 ∧
    sentiment_label (compute_sentiment ["Bravo Mahmood", "Mahmood che schifo"]) = "neutro" :=
  (compute_sentiment_spec ["Bravo Mahmood", "Mahmood che schifo"]).2.2.2.2 (by decide)

end StudioSanremo
